import Mathlib

/-!
Verification of the role-permission, eligibility-filtering and aggregate
analytics logic of the ATLAS case-management portal, shallowly embedded
from the JavaScript source.  JS numbers are modelled as rationals (all
relevant values are small integers and exact small-denominator fractions),
`Math.round` as Mathlib's `round` (both round half toward positive
infinity), optional / possibly-absent record fields as `Option`, and the
defensive `x?.y || d` access pattern as `Option` projection with default.
-/

/-! ### Permission table and identity resolution -/

/-- The static `PERMISSIONS` object: action name to list of allowed role
labels.  An action name not present in the object yields the empty list,
mirroring `PERMISSIONS[permission] || []` at the lookup site. -/
def PERMISSIONS : String → List String
  | "CREATE_ENROLLEE" => ["Admin", "Enrollment Manager"]
  | "EDIT_ENROLLEE" => ["Admin", "Enrollment Manager"]
  | "DELETE_ENROLLEE" => ["Admin"]
  | "VIEW_ENROLLEE" => ["Admin", "Enrollment Manager"]
  | "CREATE_RESOURCE" => ["Admin"]
  | "EDIT_RESOURCE" => ["Admin"]
  | "DELETE_RESOURCE" => ["Admin"]
  | "VIEW_RESOURCE" => ["Admin", "Enrollment Manager", "Partner"]
  | "CREATE_REFERRAL" => ["Admin", "Enrollment Manager"]
  | "EDIT_REFERRAL" => ["Admin", "Enrollment Manager"]
  | "CANCEL_REFERRAL" => ["Admin", "Enrollment Manager"]
  | "VIEW_REFERRAL" => ["Admin", "Enrollment Manager", "Partner"]
  | "RESPOND_REFERRAL" => ["Admin", "Partner"]
  | "CREATE_CARE_NOTE" => ["Admin", "Enrollment Manager"]
  | "EDIT_CARE_NOTE" => ["Admin", "Enrollment Manager"]
  | "DELETE_CARE_NOTE" => ["Admin"]
  | "LOAD_SAMPLE_DATA" => ["Admin"]
  | "MANAGE_USERS" => ["Admin"]
  | "ADMIN_PORTAL" => ["Admin"]
  | _ => []

/-- The action names that appear as keys of the `PERMISSIONS` object. -/
def definedActions : List String :=
  ["CREATE_ENROLLEE", "EDIT_ENROLLEE", "DELETE_ENROLLEE", "VIEW_ENROLLEE",
   "CREATE_RESOURCE", "EDIT_RESOURCE", "DELETE_RESOURCE", "VIEW_RESOURCE",
   "CREATE_REFERRAL", "EDIT_REFERRAL", "CANCEL_REFERRAL", "VIEW_REFERRAL",
   "RESPOND_REFERRAL", "CREATE_CARE_NOTE", "EDIT_CARE_NOTE", "DELETE_CARE_NOTE",
   "LOAD_SAMPLE_DATA", "MANAGE_USERS", "ADMIN_PORTAL"]

/-- `hasPermission` from the `usePermissions` hook.  `userRole` is the
resolved role state, `none` while unresolved; the source guard
`if (!userRole) return false` also rejects the falsy empty string. -/
def hasPermission (permission : String) (userRole : Option String) : Bool :=
  match userRole with
  | none => false
  | some role => if role = "" then false else (PERMISSIONS permission).contains role

/-- A stored user profile record: the `role` field may be absent. -/
structure Profile where
  role : Option String
deriving DecidableEq

/-- Role resolution from the profile snapshot: a missing profile record or a
falsy (absent or empty) `role` field resolves to the default label `CPC`,
mirroring `profileSnap.exists() ? (profileSnap.data().role || 'CPC') : 'CPC'`. -/
def resolveRole (profile : Option Profile) : String :=
  match profile with
  | none => "CPC"
  | some p =>
    match p.role with
    | none => "CPC"
    | some r => if r = "" then "CPC" else r

/-- The three enumerated roles of the `ROLES` constant. -/
def enumeratedRoles : List String := ["Admin", "Enrollment Manager", "Partner"]

/-! ### Data model -/

/-- The map of the 8 fixed wellness dimension names to scores; each
dimension may be missing (`typeof score !== 'number'` in the source). -/
structure WellnessScores where
  physical : Option ℚ
  emotional : Option ℚ
  social : Option ℚ
  intellectual : Option ℚ
  occupational : Option ℚ
  environmental : Option ℚ
  financial : Option ℚ
  spiritual : Option ℚ
deriving DecidableEq

/-- The dimension values in the fixed order of the `dimensions` array. -/
def WellnessScores.dims (s : WellnessScores) : List (Option ℚ) :=
  [s.physical, s.emotional, s.social, s.intellectual,
   s.occupational, s.environmental, s.financial, s.spiritual]

/-- `riskProfile` of a case subject.  `tier` is `none` when the field is
absent or holds the non-numeric marker `unassessed` (both fail the strict
`=== k` comparisons of the source); `wellnessScores` and `zCodes` may be
absent. -/
structure RiskProfile where
  tier : Option ℤ
  wellnessScores : Option WellnessScores
  zCodes : Option (List String)
deriving DecidableEq

/-- An enrollee (case subject); the `riskProfile` field may be absent. -/
structure Enrollee where
  riskProfile : Option RiskProfile
deriving DecidableEq

/-- `e.riskProfile?.tier` -/
def Enrollee.tier (e : Enrollee) : Option ℤ :=
  e.riskProfile.bind (fun rp => rp.tier)

/-- `e.riskProfile?.wellnessScores` -/
def Enrollee.wellnessScores (e : Enrollee) : Option WellnessScores :=
  e.riskProfile.bind (fun rp => rp.wellnessScores)

/-- `e.riskProfile?.zCodes || []` -/
def Enrollee.zCodes (e : Enrollee) : List String :=
  ((e.riskProfile.bind (fun rp => rp.zCodes)).getD [])

/-- `eligibilityCriteria` of a resource: a possibly-absent list of
classification codes and a possibly-absent income-band label (the latter
stored but never read by the filter). -/
structure EligibilityCriteria where
  zCodes : Option (List String)
  incomeBand : Option String
deriving DecidableEq

/-- A resource listing; `eligibilityCriteria` may be absent
(`resource.eligibilityCriteria || {}` in the source). -/
structure Resource where
  eligibilityCriteria : Option EligibilityCriteria
deriving DecidableEq

/-- A referral record; only the fields the analytics read are modelled. -/
structure Referral where
  status : String
  resourceName : Option String
deriving DecidableEq

/-! ### Eligibility filter -/

/-- The predicate inside `filteredResources` (identical in both
application shells): if the resource has a non-empty `zCodes` criteria
list, keep the resource only when some criteria code is among the
enrollee's codes; otherwise keep it. -/
def isEligible (enrollee : Enrollee) (resource : Resource) : Bool :=
  let criteriaZCodes : Option (List String) :=
    resource.eligibilityCriteria.bind (fun c => c.zCodes)
  let enrolleeZCodes := enrollee.zCodes
  match criteriaZCodes with
  | none => true
  | some codes =>
    if codes.length > 0 then codes.any (fun code => enrolleeZCodes.contains code)
    else true

/-- The same resource with the income-band criterion replaced (when an
eligibility record exists), used to state that the filter ignores it. -/
def Resource.withIncomeBand (resource : Resource) (band : Option String) : Resource :=
  { eligibilityCriteria :=
      resource.eligibilityCriteria.map (fun c => { c with incomeBand := band }) }

/-! ### Wellness score computations -/

/-- The numeric dimension values of an enrollee, in dimension order; the
`typeof score === 'number'` filter of the aggregate loops. -/
def presentScores (e : Enrollee) : List ℚ :=
  match e.wellnessScores with
  | none => []
  | some s => s.dims.filterMap id

/-- `calculateWellnessScore` (application shell): average of the 8
dimensions with `score || 0` substituting 0 for a missing dimension,
rounded to the nearest integer. -/
def calculateWellnessScore (enrollee : Enrollee) : ℤ :=
  match enrollee.wellnessScores with
  | none => 0
  | some scores =>
    let dimensions := scores.dims.map (fun v => v.getD 0)
    let sum : ℚ := dimensions.foldl (fun acc score => acc + score) 0
    round (sum / (dimensions.length : ℚ))

/-- `calculateEnrolleeWellness` (analytics service): average of only the
dimensions that are present, unrounded; 0 when none are. -/
def calculateEnrolleeWellness (enrollee : Enrollee) : ℚ :=
  match enrollee.wellnessScores with
  | none => 0
  | some scores =>
    let values := scores.dims.filterMap id
    if values.length > 0 then
      values.foldl (fun sum score => sum + score) 0 / (values.length : ℚ)
    else 0

/-- `calculateAverageWellness`: flatten every present dimension score of
every enrollee into one pool and round its mean; 0 on the empty list or
when no score is present. -/
def calculateAverageWellness (enrollees : List Enrollee) : ℤ :=
  if enrollees.length = 0 then 0
  else
    let scores := enrollees.foldl (fun acc e => acc ++ presentScores e) ([] : List ℚ)
    let totalScore : ℚ := scores.foldl (fun acc s => acc + s) 0
    let scoreCount := scores.length
    if scoreCount > 0 then round (totalScore / (scoreCount : ℚ)) else 0

/-! ### Risk distribution, trends, referral metrics -/

/-- Result record of `calculateRiskDistribution`. -/
structure RiskDistribution where
  tier1 : ℕ
  tier2 : ℕ
  tier3 : ℕ
  tier1Percent : ℤ
  tier2Percent : ℤ
  tier3Percent : ℤ
deriving DecidableEq

/-- `calculateRiskDistribution`: counts of enrollees with tier exactly 1,
2, 3 and the corresponding rounded percentages of the total enrollee
count; all zero on the empty list. -/
def calculateRiskDistribution (enrollees : List Enrollee) : RiskDistribution :=
  let total := enrollees.length
  if total = 0 then ⟨0, 0, 0, 0, 0, 0⟩
  else
    let tier1 := (enrollees.filter (fun e => decide (e.tier = some 1))).length
    let tier2 := (enrollees.filter (fun e => decide (e.tier = some 2))).length
    let tier3 := (enrollees.filter (fun e => decide (e.tier = some 3))).length
    ⟨tier1, tier2, tier3,
     round (((tier1 : ℚ) / (total : ℚ)) * 100),
     round (((tier2 : ℚ) / (total : ℚ)) * 100),
     round (((tier3 : ℚ) / (total : ℚ)) * 100)⟩

/-- Result record of `calculateTrends`. -/
structure Trends where
  improving : ℕ
  stable : ℕ
  declining : ℕ
  improvingPercent : ℤ
  stablePercent : ℤ
  decliningPercent : ℤ
deriving DecidableEq

/-- `calculateTrends`: bucket every enrollee by comparing its
`calculateEnrolleeWellness` value against the population average
`calculateAverageWellness`, with the 10-point thresholds of the source. -/
def calculateTrends (enrollees : List Enrollee) : Trends :=
  let avgWellness := calculateAverageWellness enrollees
  let improving := (enrollees.filter
    (fun e => decide (calculateEnrolleeWellness e > (avgWellness : ℚ) + 10))).length
  let stable := (enrollees.filter
    (fun e => decide (|calculateEnrolleeWellness e - (avgWellness : ℚ)| ≤ 10))).length
  let declining := (enrollees.filter
    (fun e => decide (calculateEnrolleeWellness e < (avgWellness : ℚ) - 10))).length
  ⟨improving, stable, declining,
   if enrollees.length > 0 then round (((improving : ℚ) / (enrollees.length : ℚ)) * 100) else 0,
   if enrollees.length > 0 then round (((stable : ℚ) / (enrollees.length : ℚ)) * 100) else 0,
   if enrollees.length > 0 then round (((declining : ℚ) / (enrollees.length : ℚ)) * 100) else 0⟩

/-- The `statusCounts` object built by `analyzeReferrals`: its keys are
exactly `Pending`, `Accepted` and `Rejected`. -/
structure StatusCounts where
  Pending : ℕ
  Accepted : ℕ
  Rejected : ℕ
deriving DecidableEq

/-- Result record of `analyzeReferrals` (the `topResources` display list
of the source is presentation data and is not modelled). -/
structure ReferralMetrics where
  statusCounts : StatusCounts
  acceptanceRate : ℤ
deriving DecidableEq

/-- `analyzeReferrals`: per-status counts for the three counted statuses
and the acceptance rate `round(Accepted / total * 100)`, 0 with no
referrals. -/
def analyzeReferrals (referrals : List Referral) : ReferralMetrics :=
  let statusCounts : StatusCounts :=
    ⟨(referrals.filter (fun r => decide (r.status = "Pending"))).length,
     (referrals.filter (fun r => decide (r.status = "Accepted"))).length,
     (referrals.filter (fun r => decide (r.status = "Rejected"))).length⟩
  let acceptanceRate : ℤ :=
    if referrals.length > 0 then
      round (((statusCounts.Accepted : ℚ) / (referrals.length : ℚ)) * 100)
    else 0
  ⟨statusCounts, acceptanceRate⟩

/-! ### Referral status transitions -/

/-- The status-changing actions reachable through the UI, with their
guards: the respond buttons render only when the referral is `Pending`
and the principal holds `RESPOND_REFERRAL`; the cancel button renders
only when the referral is `Pending` and the principal holds
`CANCEL_REFERRAL` (the card footer additionally requires
`EDIT_REFERRAL or CANCEL_REFERRAL` and `Pending`). -/
inductive ReferralStep (role : Option String) : String → String → Prop where
  | respond (outcome : String) (h : outcome = "Accepted" ∨ outcome = "Rejected")
      (hperm : hasPermission "RESPOND_REFERRAL" role = true) :
      ReferralStep role "Pending" outcome
  | cancel (hperm : hasPermission "CANCEL_REFERRAL" role = true) :
      ReferralStep role "Pending" "Cancelled"

/-- The cancel action as seen through its guards: `handleCancelReferral`
writes status `Cancelled`, but is reachable only behind the button guard
`hasPermission('CANCEL_REFERRAL') and status === 'Pending'`; otherwise
the status is untouched. -/
def attemptCancel (role : Option String) (status : String) : String :=
  if hasPermission "CANCEL_REFERRAL" role = true ∧ status = "Pending" then "Cancelled"
  else status

/-! ### Concrete records used as test inputs -/

/-- All 8 dimensions set to the same score. -/
def allScores (q : ℚ) : WellnessScores :=
  ⟨some q, some q, some q, some q, some q, some q, some q, some q⟩

/-- An enrollee whose 8 dimensions all carry the same score. -/
def enrolleeAll (q : ℚ) : Enrollee := ⟨some ⟨none, some (allScores q), none⟩⟩

/-- Seven dimensions at 80, `physical` missing. -/
def sevenEightyScores : WellnessScores :=
  ⟨none, some 80, some 80, some 80, some 80, some 80, some 80, some 80⟩

/-- The one-dimension-missing subject of the spec's per-subject example. -/
def enrolleeSevenEighty : Enrollee := ⟨some ⟨none, some sevenEightyScores, none⟩⟩

/-- Four dimensions at 80, four missing. -/
def fourEightyScores : WellnessScores :=
  ⟨some 80, some 80, some 80, some 80, none, none, none, none⟩

/-- A subject whose zero-substituted wellness (40) and present-dimension
wellness (80) are far apart. -/
def enrolleeFourEighty : Enrollee := ⟨some ⟨none, some fourEightyScores, none⟩⟩

/-- A subject with a risk profile but no tier (or the `unassessed` marker). -/
def enrolleeNoTier : Enrollee := ⟨some ⟨none, none, none⟩⟩

/-- A subject whose wellness-score record exists but has every dimension
missing. -/
def enrolleeEmptyScores : Enrollee :=
  ⟨some ⟨none, some ⟨none, none, none, none, none, none, none, none⟩, none⟩⟩

/-- Population realizing the spec's trend example: average wellness 50,
with subjects at 65 (improving), 50 and 55 (stable), 30 (declining). -/
def trendPop : List Enrollee :=
  [enrolleeAll 65, enrolleeAll 50, enrolleeAll 30, enrolleeAll 55]

/-! ### Helper lemmas -/

/-- Sum of the lengths of three filters by pairwise-exclusive predicates. -/
theorem length_filter_three {α : Type} (p q r : α → Bool) (l : List α)
    (hpq : ∀ a ∈ l, ¬(p a = true ∧ q a = true))
    (hpr : ∀ a ∈ l, ¬(p a = true ∧ r a = true))
    (hqr : ∀ a ∈ l, ¬(q a = true ∧ r a = true)) :
    (l.filter p).length + (l.filter q).length + (l.filter r).length
      = (l.filter (fun a => p a || q a || r a)).length := by
  induction l with
  | nil => rfl
  | cons x xs ih =>
    have ih' := ih (fun a ha => hpq a (List.mem_cons_of_mem _ ha))
      (fun a ha => hpr a (List.mem_cons_of_mem _ ha))
      (fun a ha => hqr a (List.mem_cons_of_mem _ ha))
    have hx : x ∈ x :: xs := List.mem_cons_self _ _
    cases hp : p x <;> cases hq : q x <;> cases hr : r x <;>
      first
        | exact absurd (⟨by assumption, by assumption⟩ : p x = true ∧ q x = true) (hpq x hx)
        | exact absurd (⟨by assumption, by assumption⟩ : p x = true ∧ r x = true) (hpr x hx)
        | exact absurd (⟨by assumption, by assumption⟩ : q x = true ∧ r x = true) (hqr x hx)
        | (simp [List.filter_cons, hp, hq, hr]; omega)

/-- `filterMap id` over a list of options that are all present is the same
as substituting the default. -/
theorem filterMap_id_all_some (l : List (Option ℚ)) (h : ∀ v ∈ l, v ≠ none) :
    l.filterMap id = l.map (fun v => v.getD 0) := by
  induction l with
  | nil => rfl
  | cons x xs ih =>
    cases x with
    | none => exact absurd rfl (h none (List.mem_cons_self _ _))
    | some a =>
      simp only [List.filterMap_cons, id, List.map_cons, Option.getD_some]
      exact congrArg _ (ih (fun v hv => h v (List.mem_cons_of_mem _ hv)))

/-- `round` is monotone on the rationals. -/
theorem round_mono_le {x y : ℚ} (h : x ≤ y) : round x ≤ round y := by
  rw [round_eq, round_eq]
  exact Int.floor_le_floor (by linarith)

/-- A subject with all 8 dimensions at `q` has present-dimension mean `q`. -/
theorem enrolleeAll_wellness (q : ℚ) : calculateEnrolleeWellness (enrolleeAll q) = q := by
  simp [calculateEnrolleeWellness, enrolleeAll, allScores,
    Enrollee.wellnessScores, WellnessScores.dims]
  ring

/-- The missing-four subject has present-dimension mean 80. -/
theorem enrolleeFourEighty_wellness : calculateEnrolleeWellness enrolleeFourEighty = 80 := by
  simp [calculateEnrolleeWellness, enrolleeFourEighty, fourEightyScores,
    Enrollee.wellnessScores, WellnessScores.dims]
  norm_num

/-! ### Claim theorems -/

/-- C1: `hasPermission a (some r)` is true exactly when `r` belongs to the
permission table's entry for `a`; an action name that is not a key of the
table has the empty allowed list, so every role is denied it; an
unresolved role is denied everything; and `Admin` belongs to the entry of
every defined action. -/
theorem C1_permission_table :
    (∀ a r, hasPermission a (some r) = true ↔ r ∈ PERMISSIONS a) ∧
    (∀ a, a ∉ definedActions → PERMISSIONS a = []) ∧
    (∀ a, hasPermission a none = false) ∧
    (∀ a, a ∈ definedActions → hasPermission a (some "Admin") = true) := by
  refine ⟨?_, ?_, ?_, ?_⟩
  · intro a r
    by_cases hr : r = ""
    · subst hr
      simp only [hasPermission, if_pos rfl]
      constructor
      · intro h
        exact absurd h (by simp)
      · intro h
        exfalso
        revert h
        unfold PERMISSIONS
        split <;> simp
    · simp [hasPermission, hr]
  · intro a ha
    unfold PERMISSIONS
    split <;> first
      | rfl
      | simp_all [definedActions]
  · intro a
    rfl
  · intro a ha
    fin_cases ha <;> decide

/-- C1 witness: an undefined action name is denied even to `Admin`, and a
defined action is allowed to `Admin`. -/
theorem C1_permission_table_witness :
    PERMISSIONS "FROBNICATE" = [] ∧ hasPermission "CREATE_ENROLLEE" (some "Admin") = true :=
  ⟨C1_permission_table.2.1 "FROBNICATE" (by decide),
   C1_permission_table.2.2.2 "CREATE_ENROLLEE" (by decide)⟩

/-- C8: a missing profile record, or one with an absent or empty `role`
field, resolves to the default label `CPC`; `CPC` is none of the three
enumerated roles, occurs in no permission-table entry, and is therefore
denied every action name. -/
theorem C8_default_role_denied :
    resolveRole none = "CPC" ∧
    (∀ p : Profile, p.role = none ∨ p.role = some "" → resolveRole (some p) = "CPC") ∧
    "CPC" ∉ enumeratedRoles ∧
    (∀ a, "CPC" ∉ PERMISSIONS a) ∧
    (∀ a, hasPermission a (some "CPC") = false) := by
  have hmem : ∀ a, "CPC" ∉ PERMISSIONS a := by
    intro a
    unfold PERMISSIONS
    split <;> decide
  refine ⟨rfl, ?_, by decide, hmem, ?_⟩
  · intro p hp
    rcases hp with h | h <;> simp [resolveRole, h]
  · intro a
    have := hmem a
    simp only [hasPermission, if_neg (by decide : ¬("CPC" : String) = "")]
    simpa using this

/-- C8 witness: a profile with an absent role field resolves to `CPC`,
which is denied a defined action. -/
theorem C8_default_role_denied_witness :
    resolveRole (some ⟨none⟩) = "CPC" ∧ hasPermission "VIEW_ENROLLEE" (some "CPC") = false :=
  ⟨C8_default_role_denied.2.1 ⟨none⟩ (Or.inl rfl),
   C8_default_role_denied.2.2.2.2 "VIEW_ENROLLEE"⟩

/-- C2: the eligibility filter accepts every resource whose
classification-code criteria list is absent or empty; for a non-empty
criteria list it accepts exactly when some criteria code occurs among the
subject's recorded codes; and the stored income-band criterion has no
effect on the result (the filter is a pure function of its two inputs by
construction). -/
theorem C2_eligibility_filter :
    (∀ (s : Enrollee) (res : Resource),
      (res.eligibilityCriteria.bind (fun c => c.zCodes) = none ∨
       res.eligibilityCriteria.bind (fun c => c.zCodes) = some []) →
      isEligible s res = true) ∧
    (∀ (s : Enrollee) (res : Resource) (codes : List String),
      res.eligibilityCriteria.bind (fun c => c.zCodes) = some codes → codes ≠ [] →
      (isEligible s res = true ↔ ∃ code ∈ codes, code ∈ s.zCodes)) ∧
    (∀ (s : Enrollee) (res : Resource) (band : Option String),
      isEligible s (res.withIncomeBand band) = isEligible s res) := by
  refine ⟨?_, ?_, ?_⟩
  · intro s res h
    rcases h with h | h <;> simp [isEligible, h]
  · intro s res codes hcodes hne
    simp only [isEligible, hcodes]
    rw [if_pos (List.length_pos.mpr hne)]
    simp
  · intro s res band
    cases hres : res.eligibilityCriteria with
    | none => simp [isEligible, Resource.withIncomeBand, hres]
    | some c => simp [isEligible, Resource.withIncomeBand, hres]

/-- A resource with no eligibility record at all. -/
def resNoCriteria : Resource := ⟨none⟩

/-- A resource requiring the housing code `Z59.0`, with an income band. -/
def resHousing : Resource := ⟨some ⟨some ["Z59.0"], some "low"⟩⟩

/-- A subject carrying codes `Z59.0` and `Z56.0`. -/
def enrolleeHoused : Enrollee := ⟨some ⟨none, none, some ["Z59.0", "Z56.0"]⟩⟩

/-- C2 witness: concrete subject and resources exercising each clause. -/
theorem C2_eligibility_filter_witness :
    isEligible enrolleeHoused resNoCriteria = true ∧
    (isEligible enrolleeHoused resHousing = true ↔
      ∃ code ∈ ["Z59.0"], code ∈ enrolleeHoused.zCodes) ∧
    isEligible enrolleeHoused (resHousing.withIncomeBand none) =
      isEligible enrolleeHoused resHousing :=
  ⟨C2_eligibility_filter.1 enrolleeHoused resNoCriteria (Or.inl rfl),
   C2_eligibility_filter.2.1 enrolleeHoused resHousing ["Z59.0"] rfl (by decide),
   C2_eligibility_filter.2.2 enrolleeHoused resHousing none⟩

/-- C6: under the two defined status-changing actions, `Cancelled` is
reached only from `Pending`; the permission-and-state-guarded cancel
action is a no-op on an `Accepted` or `Rejected` referral. -/
theorem C6_no_cancel_after_response :
    (∀ (role : Option String) (s s' : String),
      ReferralStep role s s' → s' = "Cancelled" → s = "Pending") ∧
    (∀ (role : Option String) (s : String),
      s = "Accepted" ∨ s = "Rejected" → attemptCancel role s = s) := by
  constructor
  · intro role s s' hstep hc
    cases hstep with
    | respond outcome h hperm => rfl
    | cancel hperm => rfl
  · intro role s hs
    rcases hs with h | h <;> simp [attemptCancel, h]

/-- C6 witness: an admin-guarded cancel from `Pending` starts at
`Pending`, and attempting it on an `Accepted` referral changes nothing. -/
theorem C6_no_cancel_after_response_witness :
    ("Pending" : String) = "Pending" ∧
    attemptCancel (some "Admin") "Accepted" = "Accepted" :=
  ⟨C6_no_cancel_after_response.1 (some "Admin") "Pending" "Cancelled"
     (ReferralStep.cancel (by decide)) rfl,
   C6_no_cancel_after_response.2 (some "Admin") "Accepted" (Or.inl rfl)⟩

/-- C7: each embedded analytics computation returns its zero/neutral
value on empty input, and every guarded division site yields 0 when its
denominator would be 0 (no enrollees, no present score, no referrals);
the embedded functions are total, so no modelled input throws. -/
theorem C7_empty_input_neutral :
    calculateAverageWellness [] = 0 ∧
    calculateRiskDistribution [] = ⟨0, 0, 0, 0, 0, 0⟩ ∧
    analyzeReferrals [] = ⟨⟨0, 0, 0⟩, 0⟩ ∧
    calculateTrends [] = ⟨0, 0, 0, 0, 0, 0⟩ ∧
    calculateEnrolleeWellness ⟨none⟩ = 0 ∧
    calculateWellnessScore ⟨none⟩ = 0 ∧
    calculateEnrolleeWellness enrolleeEmptyScores = 0 ∧
    calculateAverageWellness [enrolleeEmptyScores] = 0 :=
  ⟨rfl, rfl, rfl, rfl, rfl, rfl, rfl, rfl⟩

/-- C3 counterexample: for the spec's own one-dimension-missing subject
(seven dimensions at 80), the zero-substituting rounded score is 70, but
the per-subject value fed into trend classification
(`calculateEnrolleeWellness`) is 80 — the claim does not hold for that
operation. -/
theorem C3_per_subject_wellness_cex :
    calculateWellnessScore enrolleeSevenEighty = 70 ∧
    calculateEnrolleeWellness enrolleeSevenEighty = 80 ∧
    calculateEnrolleeWellness enrolleeSevenEighty ≠
      ((calculateWellnessScore enrolleeSevenEighty : ℤ) : ℚ) := by
  have h1 : calculateWellnessScore enrolleeSevenEighty = 70 := by
    simp [calculateWellnessScore, enrolleeSevenEighty, sevenEightyScores,
      Enrollee.wellnessScores, WellnessScores.dims]
    norm_num [round_eq]
  have h2 : calculateEnrolleeWellness enrolleeSevenEighty = 80 := by
    simp [calculateEnrolleeWellness, enrolleeSevenEighty, sevenEightyScores,
      Enrollee.wellnessScores, WellnessScores.dims]
    norm_num
  exact ⟨h1, h2, by rw [h1, h2]; norm_num⟩

/-- C3 (amended): the application-shell per-subject score
`calculateWellnessScore` is the mean of the 8 dimensions with 0
substituted for a missing one, rounded (all-80 gives 80; seven 80s with
one missing gives 70); the per-subject value fed into trend
classification, `calculateEnrolleeWellness`, instead averages only the
present dimensions without rounding, agreeing with the former up to
rounding exactly when all 8 dimensions are present. -/
theorem C3_per_subject_wellness :
    calculateWellnessScore (enrolleeAll 80) = 80 ∧
    calculateWellnessScore enrolleeSevenEighty = 70 ∧
    calculateEnrolleeWellness (enrolleeAll 80) = 80 ∧
    (∀ (e : Enrollee) (s : WellnessScores), e.wellnessScores = some s →
      (∀ v ∈ s.dims, v ≠ none) →
      calculateWellnessScore e = round (calculateEnrolleeWellness e)) := by
  refine ⟨?_, ?_, ?_, ?_⟩
  · simp [calculateWellnessScore, enrolleeAll, allScores,
      Enrollee.wellnessScores, WellnessScores.dims]
    norm_num [round_eq]
  · simp [calculateWellnessScore, enrolleeSevenEighty, sevenEightyScores,
      Enrollee.wellnessScores, WellnessScores.dims]
    norm_num [round_eq]
  · simp [calculateEnrolleeWellness, enrolleeAll, allScores,
      Enrollee.wellnessScores, WellnessScores.dims]
    norm_num
  · intro e s hs hall
    have hdims : s.dims.filterMap id = s.dims.map (fun v => v.getD 0) :=
      filterMap_id_all_some s.dims hall
    have h8 : s.dims.length = 8 := rfl
    simp only [calculateWellnessScore, calculateEnrolleeWellness, hs, hdims,
      List.length_map, h8]
    norm_num

/-- C3 witness: the general agreement clause applied to the all-80
subject. -/
theorem C3_per_subject_wellness_witness :
    calculateWellnessScore (enrolleeAll 80) =
      round (calculateEnrolleeWellness (enrolleeAll 80)) :=
  C3_per_subject_wellness.2.2.2 (enrolleeAll 80) (allScores 80) rfl (by decide)

/-- C5 counterexample: in the population of one all-80 subject and one
subject with four dimensions at 80 and four missing, the population
average is 80 and the zero-substituted rounded wellness of the second
subject is 40, more than 10 below it — under the claim it must be
classified declining — yet `calculateTrends` puts no subject in the
declining bucket (it feeds the present-dimension mean 80 into the
comparison). -/
theorem C5_trend_classification_cex :
    calculateAverageWellness [enrolleeAll 80, enrolleeFourEighty] = 80 ∧
    calculateWellnessScore enrolleeFourEighty = 40 ∧
    ((calculateWellnessScore enrolleeFourEighty : ℚ) <
      (calculateAverageWellness [enrolleeAll 80, enrolleeFourEighty] : ℚ) - 10) ∧
    (calculateTrends [enrolleeAll 80, enrolleeFourEighty]).declining = 0 ∧
    (calculateTrends [enrolleeAll 80, enrolleeFourEighty]).stable = 2 := by
  have h1 : calculateAverageWellness [enrolleeAll 80, enrolleeFourEighty] = 80 := by
    simp [calculateAverageWellness, presentScores, enrolleeAll, allScores,
      enrolleeFourEighty, fourEightyScores, Enrollee.wellnessScores, WellnessScores.dims]
    norm_num [round_eq]
  have h2 : calculateWellnessScore enrolleeFourEighty = 40 := by
    simp [calculateWellnessScore, enrolleeFourEighty, fourEightyScores,
      Enrollee.wellnessScores, WellnessScores.dims]
    norm_num [round_eq]
  refine ⟨h1, h2, by rw [h1, h2]; norm_num, ?_, ?_⟩ <;>
    · norm_num [calculateTrends, h1, enrolleeAll_wellness, enrolleeFourEighty_wellness,
        List.filter_cons]

/-- C5 (amended): trend classification compares each subject's
present-dimension mean `calculateEnrolleeWellness` (not the
zero-substituted rounded score) against the population average, with the
strict 10-point thresholds; in a population of average 50, a subject at
65 is bucketed improving, 50 and 55 stable, and 30 declining, and any
subject over, within, or under 10 points of the average makes the
respective bucket non-empty. -/
theorem C5_trend_classification :
    calculateAverageWellness trendPop = 50 ∧
    calculateEnrolleeWellness (enrolleeAll 65) = 65 ∧
    calculateEnrolleeWellness (enrolleeAll 50) = 50 ∧
    calculateEnrolleeWellness (enrolleeAll 30) = 30 ∧
    (calculateTrends trendPop).improving = 1 ∧
    (calculateTrends trendPop).stable = 2 ∧
    (calculateTrends trendPop).declining = 1 ∧
    (∀ (es : List Enrollee) (e : Enrollee), e ∈ es →
      (calculateEnrolleeWellness e > (calculateAverageWellness es : ℚ) + 10 →
        0 < (calculateTrends es).improving) ∧
      (|calculateEnrolleeWellness e - (calculateAverageWellness es : ℚ)| ≤ 10 →
        0 < (calculateTrends es).stable) ∧
      (calculateEnrolleeWellness e < (calculateAverageWellness es : ℚ) - 10 →
        0 < (calculateTrends es).declining)) := by
  have havg : calculateAverageWellness trendPop = 50 := by
    simp [calculateAverageWellness, presentScores, trendPop, enrolleeAll, allScores,
      Enrollee.wellnessScores, WellnessScores.dims]
    norm_num [round_eq]
  have havg' : calculateAverageWellness
      [enrolleeAll 65, enrolleeAll 50, enrolleeAll 30, enrolleeAll 55] = 50 := havg
  refine ⟨havg, enrolleeAll_wellness 65, enrolleeAll_wellness 50,
    enrolleeAll_wellness 30, ?_, ?_, ?_, ?_⟩
  · norm_num [calculateTrends, havg', trendPop, enrolleeAll_wellness, List.filter_cons]
  · norm_num [calculateTrends, havg', trendPop, enrolleeAll_wellness, List.filter_cons]
  · norm_num [calculateTrends, havg', trendPop, enrolleeAll_wellness, List.filter_cons]
  · intro es e he
    refine ⟨?_, ?_, ?_⟩ <;> intro hcond <;>
      exact List.length_pos_of_mem (List.mem_filter.mpr ⟨he, decide_eq_true hcond⟩)

/-- C5 witness: the improving clause applied to the 65-subject of the
concrete population. -/
theorem C5_trend_classification_witness :
    0 < (calculateTrends trendPop).improving :=
  (C5_trend_classification.2.2.2.2.2.2.2 trendPop (enrolleeAll 65)
    (by simp [trendPop])).1
    (by rw [C5_trend_classification.2.1, C5_trend_classification.1]; norm_num)

/-- C4 counterexample: a single subject whose tier is absent (or the
`unassessed` marker) is counted in no tier, so the tier counts sum to 0,
not to the list length 1, and the percentages sum to 0, not 100. -/
theorem C4_risk_distribution_cex :
    (calculateRiskDistribution [enrolleeNoTier]).tier1 +
      (calculateRiskDistribution [enrolleeNoTier]).tier2 +
      (calculateRiskDistribution [enrolleeNoTier]).tier3 = 0 ∧
    ([enrolleeNoTier] : List Enrollee).length = 1 ∧
    (calculateRiskDistribution [enrolleeNoTier]).tier1Percent +
      (calculateRiskDistribution [enrolleeNoTier]).tier2Percent +
      (calculateRiskDistribution [enrolleeNoTier]).tier3Percent = 0 := by
  refine ⟨?_, rfl, ?_⟩ <;>
    simp [calculateRiskDistribution, enrolleeNoTier, Enrollee.tier, List.filter_cons]

/-- C4 (amended): the tier counts sum to the number of subjects whose
tier is exactly 1, 2 or 3 — subjects with an absent or `unassessed` tier
fall outside every count — and for a non-empty list in which every
subject has tier 1, 2 or 3, the counts sum to the list length and the
three rounded percentages sum to 100 within rounding error (at most 2
off). -/
theorem C4_risk_distribution (es : List Enrollee) :
    (calculateRiskDistribution es).tier1 + (calculateRiskDistribution es).tier2 +
        (calculateRiskDistribution es).tier3 =
      (es.filter (fun e => decide (e.tier = some 1) || decide (e.tier = some 2) ||
        decide (e.tier = some 3))).length ∧
    (es ≠ [] → (∀ e ∈ es, e.tier = some 1 ∨ e.tier = some 2 ∨ e.tier = some 3) →
      (calculateRiskDistribution es).tier1 + (calculateRiskDistribution es).tier2 +
          (calculateRiskDistribution es).tier3 = es.length ∧
      |(calculateRiskDistribution es).tier1Percent +
          (calculateRiskDistribution es).tier2Percent +
          (calculateRiskDistribution es).tier3Percent - 100| ≤ 2) := by
  have hexcl12 : ∀ e ∈ es,
      ¬(decide (e.tier = some 1) = true ∧ decide (e.tier = some 2) = true) := by
    intro e _ h
    have h1 := of_decide_eq_true h.1
    have h2 := of_decide_eq_true h.2
    rw [h1] at h2
    simp at h2
  have hexcl13 : ∀ e ∈ es,
      ¬(decide (e.tier = some 1) = true ∧ decide (e.tier = some 3) = true) := by
    intro e _ h
    have h1 := of_decide_eq_true h.1
    have h2 := of_decide_eq_true h.2
    rw [h1] at h2
    simp at h2
  have hexcl23 : ∀ e ∈ es,
      ¬(decide (e.tier = some 2) = true ∧ decide (e.tier = some 3) = true) := by
    intro e _ h
    have h1 := of_decide_eq_true h.1
    have h2 := of_decide_eq_true h.2
    rw [h1] at h2
    simp at h2
  have hthree := length_filter_three
    (fun e => decide (e.tier = some 1)) (fun e => decide (e.tier = some 2))
    (fun e => decide (e.tier = some 3)) es hexcl12 hexcl13 hexcl23
  by_cases hes : es.length = 0
  · have hnil : es = [] := List.length_eq_zero.mp hes
    subst hnil
    exact ⟨rfl, fun h => absurd rfl h⟩
  · have hd : calculateRiskDistribution es =
        ⟨(es.filter (fun e => decide (e.tier = some 1))).length,
         (es.filter (fun e => decide (e.tier = some 2))).length,
         (es.filter (fun e => decide (e.tier = some 3))).length,
         round ((((es.filter (fun e => decide (e.tier = some 1))).length : ℚ) /
           (es.length : ℚ)) * 100),
         round ((((es.filter (fun e => decide (e.tier = some 2))).length : ℚ) /
           (es.length : ℚ)) * 100),
         round ((((es.filter (fun e => decide (e.tier = some 3))).length : ℚ) /
           (es.length : ℚ)) * 100)⟩ := by
      unfold calculateRiskDistribution
      rw [if_neg hes]
    refine ⟨by rw [hd]; exact hthree, ?_⟩
    intro _ hall
    have hfull : es.filter (fun e => decide (e.tier = some 1) || decide (e.tier = some 2) ||
        decide (e.tier = some 3)) = es := by
      apply List.filter_eq_self.mpr
      intro e he
      rcases hall e he with h | h | h <;> simp [h]
    have hsum : (es.filter (fun e => decide (e.tier = some 1))).length +
        (es.filter (fun e => decide (e.tier = some 2))).length +
        (es.filter (fun e => decide (e.tier = some 3))).length = es.length := by
      rw [hthree, hfull]
    refine ⟨by rw [hd]; exact hsum, ?_⟩
    rw [hd]
    have hn0 : ((es.length : ℚ)) ≠ 0 := Nat.cast_ne_zero.mpr hes
    have hcast : ((es.filter (fun e => decide (e.tier = some 1))).length : ℚ) +
        ((es.filter (fun e => decide (e.tier = some 2))).length : ℚ) +
        ((es.filter (fun e => decide (e.tier = some 3))).length : ℚ) = (es.length : ℚ) := by
      exact_mod_cast congrArg (fun n : ℕ => (n : ℚ)) hsum
    have hq : (((es.filter (fun e => decide (e.tier = some 1))).length : ℚ) /
          (es.length : ℚ)) * 100 +
        (((es.filter (fun e => decide (e.tier = some 2))).length : ℚ) /
          (es.length : ℚ)) * 100 +
        (((es.filter (fun e => decide (e.tier = some 3))).length : ℚ) /
          (es.length : ℚ)) * 100 = 100 := by
      field_simp
      linarith [hcast]
    have b1 := abs_sub_round ((((es.filter (fun e => decide (e.tier = some 1))).length : ℚ) /
      (es.length : ℚ)) * 100)
    have b2 := abs_sub_round ((((es.filter (fun e => decide (e.tier = some 2))).length : ℚ) /
      (es.length : ℚ)) * 100)
    have b3 := abs_sub_round ((((es.filter (fun e => decide (e.tier = some 3))).length : ℚ) /
      (es.length : ℚ)) * 100)
    rw [abs_le] at b1 b2 b3
    rw [abs_le]
    have hQge : (-2 : ℚ) ≤
        ((round ((((es.filter (fun e => decide (e.tier = some 1))).length : ℚ) /
            (es.length : ℚ)) * 100) +
          round ((((es.filter (fun e => decide (e.tier = some 2))).length : ℚ) /
            (es.length : ℚ)) * 100) +
          round ((((es.filter (fun e => decide (e.tier = some 3))).length : ℚ) /
            (es.length : ℚ)) * 100) - 100 : ℤ) : ℚ) := by
      push_cast
      linarith [hq, b1.1, b1.2, b2.1, b2.2, b3.1, b3.2]
    have hQle : ((round ((((es.filter (fun e => decide (e.tier = some 1))).length : ℚ) /
            (es.length : ℚ)) * 100) +
          round ((((es.filter (fun e => decide (e.tier = some 2))).length : ℚ) /
            (es.length : ℚ)) * 100) +
          round ((((es.filter (fun e => decide (e.tier = some 3))).length : ℚ) /
            (es.length : ℚ)) * 100) - 100 : ℤ) : ℚ) ≤ 2 := by
      push_cast
      linarith [hq, b1.1, b1.2, b2.1, b2.2, b3.1, b3.2]
    exact ⟨by exact_mod_cast hQge, by exact_mod_cast hQle⟩

/-- A subject with the given tier and nothing else. -/
def enrolleeTier (n : ℤ) : Enrollee := ⟨some ⟨some n, none, none⟩⟩

/-- C4 witness: for two subjects of tiers 1 and 3 the counts sum to 2
and the percentages sum to 100 within rounding. -/
theorem C4_risk_distribution_witness :
    (calculateRiskDistribution [enrolleeTier 1, enrolleeTier 3]).tier1 +
      (calculateRiskDistribution [enrolleeTier 1, enrolleeTier 3]).tier2 +
      (calculateRiskDistribution [enrolleeTier 1, enrolleeTier 3]).tier3 =
      ([enrolleeTier 1, enrolleeTier 3] : List Enrollee).length ∧
    |(calculateRiskDistribution [enrolleeTier 1, enrolleeTier 3]).tier1Percent +
      (calculateRiskDistribution [enrolleeTier 1, enrolleeTier 3]).tier2Percent +
      (calculateRiskDistribution [enrolleeTier 1, enrolleeTier 3]).tier3Percent - 100| ≤ 2 :=
  (C4_risk_distribution [enrolleeTier 1, enrolleeTier 3]).2 (by simp) (by decide)

/-- C9: the status counts cover exactly the keys `Pending`, `Accepted`
and `Rejected` (the fields of `StatusCounts`); their sum never exceeds
the referral count and is strictly below it whenever some referral is
`Cancelled` or `Completed`; appending such a referral enlarges the
acceptance-rate denominator without touching its numerator, so it can
only lower the acceptance rate. -/
theorem C9_referral_status_counts (rs : List Referral) :
    ((analyzeReferrals rs).statusCounts.Pending + (analyzeReferrals rs).statusCounts.Accepted +
        (analyzeReferrals rs).statusCounts.Rejected ≤ rs.length) ∧
    ((∃ r ∈ rs, r.status = "Cancelled" ∨ r.status = "Completed") →
      (analyzeReferrals rs).statusCounts.Pending + (analyzeReferrals rs).statusCounts.Accepted +
        (analyzeReferrals rs).statusCounts.Rejected < rs.length) ∧
    (∀ r : Referral, r.status = "Cancelled" ∨ r.status = "Completed" →
      (analyzeReferrals (rs ++ [r])).acceptanceRate ≤ (analyzeReferrals rs).acceptanceRate) := by
  have hex1 : ∀ r ∈ rs,
      ¬(decide (r.status = "Pending") = true ∧ decide (r.status = "Accepted") = true) := by
    intro r _ h
    have h1 := of_decide_eq_true h.1
    have h2 := of_decide_eq_true h.2
    rw [h1] at h2
    exact absurd h2 (by decide)
  have hex2 : ∀ r ∈ rs,
      ¬(decide (r.status = "Pending") = true ∧ decide (r.status = "Rejected") = true) := by
    intro r _ h
    have h1 := of_decide_eq_true h.1
    have h2 := of_decide_eq_true h.2
    rw [h1] at h2
    exact absurd h2 (by decide)
  have hex3 : ∀ r ∈ rs,
      ¬(decide (r.status = "Accepted") = true ∧ decide (r.status = "Rejected") = true) := by
    intro r _ h
    have h1 := of_decide_eq_true h.1
    have h2 := of_decide_eq_true h.2
    rw [h1] at h2
    exact absurd h2 (by decide)
  have hthree := length_filter_three
    (fun r => decide (r.status = "Pending")) (fun r => decide (r.status = "Accepted"))
    (fun r => decide (r.status = "Rejected")) rs hex1 hex2 hex3
  have hproj : (analyzeReferrals rs).statusCounts.Pending +
      (analyzeReferrals rs).statusCounts.Accepted +
      (analyzeReferrals rs).statusCounts.Rejected =
      (rs.filter (fun r => decide (r.status = "Pending"))).length +
      (rs.filter (fun r => decide (r.status = "Accepted"))).length +
      (rs.filter (fun r => decide (r.status = "Rejected"))).length := rfl
  refine ⟨?_, ?_, ?_⟩
  · rw [hproj, hthree]
    exact List.length_filter_le _ rs
  · rintro ⟨r0, hr0, hst⟩
    rw [hproj, hthree]
    apply List.length_filter_lt_length_iff_exists.mpr
    refine ⟨r0, hr0, ?_⟩
    rcases hst with h | h <;> (simp only [h]; decide)
  · intro r hst
    have hdef : ∀ l : List Referral, (analyzeReferrals l).acceptanceRate =
        if l.length > 0 then
          round ((((l.filter (fun x => decide (x.status = "Accepted"))).length : ℚ) /
            (l.length : ℚ)) * 100)
        else 0 := fun l => rfl
    have hAcc : (rs ++ [r]).filter (fun x => decide (x.status = "Accepted")) =
        rs.filter (fun x => decide (x.status = "Accepted")) := by
      rw [List.filter_append]
      have hr : [r].filter (fun x => decide (x.status = "Accepted")) = [] := by
        rcases hst with h | h <;> simp [List.filter_cons, h]
      rw [hr, List.append_nil]
    rw [hdef, hdef, hAcc]
    by_cases hn : rs.length = 0
    · have hnil : rs = [] := List.length_eq_zero.mp hn
      subst hnil
      simp [round_eq]
      norm_num
    · have hpos : 0 < rs.length := Nat.pos_of_ne_zero hn
      rw [if_pos (by simp), if_pos hpos]
      apply round_mono_le
      have hq0 : (0 : ℚ) < (rs.length : ℚ) := by exact_mod_cast hpos
      have hq1 : ((rs.length : ℕ) : ℚ) ≤ (((rs ++ [r]).length : ℕ) : ℚ) := by
        push_cast [List.length_append]
        linarith
      have hA : (0 : ℚ) ≤ ((rs.filter (fun x => decide (x.status = "Accepted"))).length : ℚ) := by
        positivity
      gcongr

/-- C9 witness: a list holding one accepted and one cancelled referral
undercounts (2 versus 3 statuses counted... ) and appending a cancelled
referral lowers the rate. -/
theorem C9_referral_status_counts_witness :
    ((analyzeReferrals [Referral.mk "Accepted" none, Referral.mk "Cancelled" none]).statusCounts.Pending +
      (analyzeReferrals [Referral.mk "Accepted" none, Referral.mk "Cancelled" none]).statusCounts.Accepted +
      (analyzeReferrals [Referral.mk "Accepted" none, Referral.mk "Cancelled" none]).statusCounts.Rejected <
        ([Referral.mk "Accepted" none, Referral.mk "Cancelled" none] : List Referral).length) ∧
    (analyzeReferrals ([Referral.mk "Accepted" none] ++ [Referral.mk "Cancelled" none])).acceptanceRate ≤
      (analyzeReferrals [Referral.mk "Accepted" none]).acceptanceRate :=
  ⟨(C9_referral_status_counts [Referral.mk "Accepted" none, Referral.mk "Cancelled" none]).2.1
      ⟨Referral.mk "Cancelled" none, by simp, Or.inl rfl⟩,
   (C9_referral_status_counts [Referral.mk "Accepted" none]).2.2
      (Referral.mk "Cancelled" none) (Or.inl rfl)⟩

/-- C10: every subject satisfies exactly one of the three trend
conditions relative to the population average, so the bucket counts
always partition the population: improving + stable + declining equals
the number of subjects (and the bucket percentages are taken over that
same total). -/
theorem C10_trend_partition (es : List Enrollee) :
    (calculateTrends es).improving + (calculateTrends es).stable +
        (calculateTrends es).declining = es.length ∧
    ∀ e : Enrollee,
      (calculateEnrolleeWellness e > (calculateAverageWellness es : ℚ) + 10 ∧
        ¬(|calculateEnrolleeWellness e - (calculateAverageWellness es : ℚ)| ≤ 10) ∧
        ¬(calculateEnrolleeWellness e < (calculateAverageWellness es : ℚ) - 10)) ∨
      (¬(calculateEnrolleeWellness e > (calculateAverageWellness es : ℚ) + 10) ∧
        (|calculateEnrolleeWellness e - (calculateAverageWellness es : ℚ)| ≤ 10) ∧
        ¬(calculateEnrolleeWellness e < (calculateAverageWellness es : ℚ) - 10)) ∨
      (¬(calculateEnrolleeWellness e > (calculateAverageWellness es : ℚ) + 10) ∧
        ¬(|calculateEnrolleeWellness e - (calculateAverageWellness es : ℚ)| ≤ 10) ∧
        (calculateEnrolleeWellness e < (calculateAverageWellness es : ℚ) - 10)) := by
  have tri : ∀ w a : ℚ,
      (w > a + 10 ∧ ¬(|w - a| ≤ 10) ∧ ¬(w < a - 10)) ∨
      (¬(w > a + 10) ∧ (|w - a| ≤ 10) ∧ ¬(w < a - 10)) ∨
      (¬(w > a + 10) ∧ ¬(|w - a| ≤ 10) ∧ (w < a - 10)) := by
    intro w a
    by_cases h1 : w > a + 10
    · refine Or.inl ⟨h1, ?_, ?_⟩
      · intro habs
        rw [abs_le] at habs
        linarith [habs.2]
      · intro hlt
        linarith
    · by_cases h2 : w < a - 10
      · refine Or.inr (Or.inr ⟨h1, ?_, h2⟩)
        intro habs
        rw [abs_le] at habs
        linarith [habs.1]
      · refine Or.inr (Or.inl ⟨h1, ?_, h2⟩)
        rw [abs_le]
        push_neg at h1 h2
        constructor <;> linarith
  have hex1 : ∀ e ∈ es,
      ¬(decide (calculateEnrolleeWellness e > (calculateAverageWellness es : ℚ) + 10) = true ∧
        decide (|calculateEnrolleeWellness e - (calculateAverageWellness es : ℚ)| ≤ 10) = true) := by
    intro e _ h
    have h1 := of_decide_eq_true h.1
    have h2 := of_decide_eq_true h.2
    rw [abs_le] at h2
    linarith [h2.2]
  have hex2 : ∀ e ∈ es,
      ¬(decide (calculateEnrolleeWellness e > (calculateAverageWellness es : ℚ) + 10) = true ∧
        decide (calculateEnrolleeWellness e < (calculateAverageWellness es : ℚ) - 10) = true) := by
    intro e _ h
    have h1 := of_decide_eq_true h.1
    have h2 := of_decide_eq_true h.2
    linarith
  have hex3 : ∀ e ∈ es,
      ¬(decide (|calculateEnrolleeWellness e - (calculateAverageWellness es : ℚ)| ≤ 10) = true ∧
        decide (calculateEnrolleeWellness e < (calculateAverageWellness es : ℚ) - 10) = true) := by
    intro e _ h
    have h1 := of_decide_eq_true h.1
    have h2 := of_decide_eq_true h.2
    rw [abs_le] at h1
    linarith [h1.1]
  have hthree := length_filter_three
    (fun e => decide (calculateEnrolleeWellness e > (calculateAverageWellness es : ℚ) + 10))
    (fun e => decide (|calculateEnrolleeWellness e - (calculateAverageWellness es : ℚ)| ≤ 10))
    (fun e => decide (calculateEnrolleeWellness e < (calculateAverageWellness es : ℚ) - 10))
    es hex1 hex2 hex3
  have hfull : es.filter
      (fun e => decide (calculateEnrolleeWellness e > (calculateAverageWellness es : ℚ) + 10) ||
        decide (|calculateEnrolleeWellness e - (calculateAverageWellness es : ℚ)| ≤ 10) ||
        decide (calculateEnrolleeWellness e < (calculateAverageWellness es : ℚ) - 10)) = es := by
    apply List.filter_eq_self.mpr
    intro e _
    simp only [Bool.or_eq_true, decide_eq_true_eq]
    rcases tri (calculateEnrolleeWellness e) ((calculateAverageWellness es : ℚ)) with
      ⟨h1, _, _⟩ | ⟨_, h2, _⟩ | ⟨_, _, h3⟩
    · exact Or.inl (Or.inl h1)
    · exact Or.inl (Or.inr h2)
    · exact Or.inr h3
  have hproj : (calculateTrends es).improving + (calculateTrends es).stable +
      (calculateTrends es).declining =
      (es.filter (fun e => decide (calculateEnrolleeWellness e >
        (calculateAverageWellness es : ℚ) + 10))).length +
      (es.filter (fun e => decide (|calculateEnrolleeWellness e -
        (calculateAverageWellness es : ℚ)| ≤ 10))).length +
      (es.filter (fun e => decide (calculateEnrolleeWellness e <
        (calculateAverageWellness es : ℚ) - 10))).length := rfl
  constructor
  · rw [hproj, hthree, hfull]
  · intro e
    exact tri (calculateEnrolleeWellness e) ((calculateAverageWellness es : ℚ))
